import Mathlib

/-!
Verification of the localscribe model-routing backend.

Shallow embedding of the Python sources:
  * `app/config_manager.py`  (runtime configuration store)
  * `app/models/client.py`   (backend protocol adapter / model client)
  * `app/services/analysis.py` (clarity-issue reconciliation)
  * `app/prompts.py`, `app/services/editing.py` (edit orchestration)

Python strings are modelled as `List Char`; machine floats that only ever
carry literal sampling parameters are modelled as `ℚ`; JSON values as an
inductive `JVal`; exceptions as `Except`.
-/

namespace LocalScribe

/-! ## Python string primitives -/

/-- Whitespace characters recognised by Python's `str.strip()` (ASCII range). -/
def isPySpace (c : Char) : Bool :=
  c = ' ' ∨ c = '\t' ∨ c = '\n' ∨ c = '\r' ∨ c = '\x0b' ∨ c = '\x0c'

/-- Python `s.strip()`: drop whitespace from both ends. -/
def pyStrip (s : List Char) : List Char :=
  (s.dropWhile isPySpace).rdropWhile isPySpace

/-- Python `s.rstrip("/")`: drop trailing slash characters. -/
def pyRstripSlash (s : List Char) : List Char :=
  s.rdropWhile (fun c => c = '/')

/-- The normalisation `.strip().rstrip("/")` applied to base URLs. -/
def normBase (s : List Char) : List Char :=
  pyRstripSlash (pyStrip s)

/-- Python `t.find(q)`: index of the first occurrence of `q` in `t`,
`none` when `q` is not a substring (Python returns `-1`). -/
def pyFind : List Char → List Char → Option Nat
  | [], q => if q <+: ([] : List Char) then some 0 else none
  | c :: t', q =>
      if q <+: (c :: t') then some 0 else (pyFind t' q).map (· + 1)

/-- Python truthiness of an optional string (`None` and `""` are falsy):
`x or y`. -/
def pyOr (x : Option (List Char)) (y : List Char) : List Char :=
  match x with
  | none => y
  | some s => if s = [] then y else s

/-! ## Runtime configuration (`app/config_manager.py`) -/

/-- The `RuntimeConfig` dataclass: three string fields persisted to disk. -/
structure RuntimeConfig where
  ollama_base_url : List Char
  grammar_model : List Char
  general_model : List Char
  deriving DecidableEq, Repr

/-- Embeds `ConfigManager._load`, lines 47-51: the normalisation applied to the three
string fields read from the JSON file (file IO itself is out of scope). -/
def loadRuntimeConfig (base grammar general : List Char) : RuntimeConfig :=
  { ollama_base_url := normBase base
    grammar_model := pyStrip grammar
    general_model := pyStrip general }

/-- Embeds `ConfigManager.get_runtime_config`: returns a fresh copy of the stored
configuration. -/
def get_runtime_config (cfg : RuntimeConfig) : RuntimeConfig :=
  { ollama_base_url := cfg.ollama_base_url
    grammar_model := cfg.grammar_model
    general_model := cfg.general_model }

/-- Embeds `ConfigManager.update_runtime_config`: merge the supplied fields (Python
`x or old` keeps the old value for `None` and for empty strings), trim each,
and additionally strip trailing slashes from the base URL. -/
def update_runtime_config (cfg : RuntimeConfig)
    (ollama_base_url grammar_model general_model : Option (List Char)) :
    RuntimeConfig :=
  { ollama_base_url := normBase (pyOr ollama_base_url cfg.ollama_base_url)
    grammar_model := pyStrip (pyOr grammar_model cfg.grammar_model)
    general_model := pyStrip (pyOr general_model cfg.general_model) }

/-- Backend kind tag (`ModelAPIType = Literal["ollama", "openai"]`). -/
inductive APIType where
  | ollama
  | openai
  deriving DecidableEq, Repr

/-- The `ModelConfig` dataclass from `app/config.py`. -/
structure ModelConfig where
  name : List Char
  endpoint : List Char
  api_type : APIType
  temperature : ℚ
  max_tokens : ℕ
  top_p : ℚ
  deriving DecidableEq, Repr

/-- Embeds `ConfigManager.get_model_config`: task-key resolution to a fully
specified model configuration. -/
def get_model_config (cfg : RuntimeConfig) (key : List Char) : ModelConfig :=
  if key = "grammar".toList ∨ key = "analysis".toList then
    { name := cfg.grammar_model
      endpoint := cfg.ollama_base_url ++ "/api/chat".toList
      api_type := .ollama
      temperature := 1/10
      max_tokens := 512
      top_p := 95/100 }
  else
    { name := cfg.general_model
      endpoint := cfg.ollama_base_url ++ "/api/chat".toList
      api_type := .ollama
      temperature := 1/2
      max_tokens := 768
      top_p := 9/10 }

/-! ## JSON values and the model client (`app/models/client.py`) -/

/-- JSON-ish values as delivered by the HTTP layer and consumed by the
protocol adapter. -/
inductive JVal where
  | null
  | bool (b : Bool)
  | num (q : ℚ)
  | str (s : List Char)
  | arr (xs : List JVal)
  | obj (kvs : List (String × JVal))

/-- Python truthiness of a JSON value (`None`, `False`, `0`, `""`, `[]`,
`{}` are falsy). -/
def jTruthy : JVal → Bool
  | .null => false
  | .bool b => b
  | .num q => decide (q ≠ 0)
  | .str s => !s.isEmpty
  | .arr xs => !xs.isEmpty
  | .obj kvs => !kvs.isEmpty

/-- Dictionary lookup (first binding wins); `none` for absent keys and for
non-objects. -/
def jGet : JVal → String → Option JVal
  | .obj kvs, k => (kvs.find? (fun p => p.1 == k)).map (fun p => p.2)
  | _, _ => none

/-- Exceptions thrown by the client layer: the typed `ModelClientError`, and
the untyped Python errors (`TypeError`/`AttributeError`/`KeyError`) raised
when a JSON value has an unexpected shape. -/
inductive PErr where
  | client (msg : List Char)
  | typeErr
  deriving DecidableEq, Repr

/-- Models `dict.get` on a value that must be a mapping: raises `AttributeError`
(modelled as `typeErr`) on non-objects. -/
def jGetE (v : JVal) (k : String) : Except PErr (Option JVal) :=
  match v with
  | .obj kvs => .ok ((kvs.find? (fun p => p.1 == k)).map (fun p => p.2))
  | _ => .error .typeErr

/-- The `ToolCall` dataclass: the fields are filled with whatever JSON values
`func.get` returns (the dataclass performs no validation). -/
structure ToolCall where
  name : JVal
  arguments : JVal

/-- The `ModelResponse` dataclass. -/
structure ModelResponse where
  content : JVal
  tool_calls : Option (List ToolCall)

/-- The tool-call loop shared verbatim by both branches of
`ModelClient._parse_response` (lines 110-117 and 129-142): for each entry,
`func = tc.get("function", {})`; when `func` is truthy, append
`ToolCall(func.get("name", ""), func.get("arguments", {}))`.  OpenAI-style
string arguments are passed through as-is (no `json.loads` is performed). -/
def parseToolCallList : List JVal → Except PErr (List ToolCall)
  | [] => .ok []
  | tc :: rest =>
    match tc with
    | .obj _ =>
        let func := (jGet tc "function").getD (.obj [])
        if jTruthy func then
          match func with
          | .obj _ => do
              let nm := (jGet func "name").getD (.str [])
              let args := (jGet func "arguments").getD (.obj [])
              let tail ← parseToolCallList rest
              .ok (⟨nm, args⟩ :: tail)
          | _ => .error .typeErr
        else
          parseToolCallList rest
    | _ => .error .typeErr

/-- Models `raw_tool_calls = message.get("tool_calls")`; iterate it only when
truthy; iterating a truthy non-list raises. -/
def parseRawToolCalls (rawTc : Option JVal) : Except PErr (List ToolCall) :=
  match rawTc with
  | some v =>
      if jTruthy v then
        match v with
        | .arr xs => parseToolCallList xs
        | _ => .error .typeErr
      else .ok []
  | none => .ok []

/-- The branch bodies of `ModelClient._parse_response` (lines 96-143):
extract the content value and the list of parsed tool calls, before the
final normalisation on line 144. -/
def parseMessage (api : APIType) (payload : JVal) :
    Except PErr (JVal × List ToolCall) :=
  match api with
  | .ollama => do
      let message? ← jGetE payload "message"
      let message := message?.getD .null
      if jTruthy message then
        match message with
        | .obj _ =>
            match (jGet message "content").getD (.str []) with
            | .str s => do
                let calls ← parseRawToolCalls (jGet message "tool_calls")
                .ok (.str (pyStrip s), calls)
            | _ => .error .typeErr
        | _ => .error .typeErr
      else
        .error (.client ("Malformed Ollama response: missing 'message'.").toList)
  | .openai => do
      let choices? ← jGetE payload "choices"
      let choices := choices?.getD .null
      if jTruthy choices then
        match choices with
        | .arr (c :: _) =>
            match c with
            | .obj _ =>
                match jGet c "message" with
                | some message =>
                    match message with
                    | .obj _ => do
                        let c0 := (jGet message "content").getD (.str [])
                        let content := if jTruthy c0 then c0 else .str []
                        let calls ← parseRawToolCalls (jGet message "tool_calls")
                        .ok (content, calls)
                    | _ => .error .typeErr
                | none => .error .typeErr
            | _ => .error .typeErr
        | _ => .error .typeErr
      else
        .error (.client ("Malformed OpenAI response: missing 'choices'.").toList)

/-- Embeds `ModelClient._parse_response`: branch bodies, then line 144:
`ModelResponse(content=content, tool_calls=tool_calls if tool_calls else None)`. -/
def parseResponse (api : APIType) (payload : JVal) : Except PErr ModelResponse :=
  (parseMessage api payload).map
    (fun r => ⟨r.1, if r.2.isEmpty then none else some r.2⟩)

/-- Python truthiness of the optional `tools` argument (`if tools:`). -/
def toolsTruthy : Option (List JVal) → Bool
  | some (_ :: _) => true
  | _ => false

/-- `ModelClient._build_payload`: the backend-specific request envelope,
with dictionary keys in insertion order. -/
def buildPayload (cfg : ModelConfig) (messages : List JVal)
    (tools : Option (List JVal)) : JVal :=
  match cfg.api_type with
  | .ollama =>
      .obj ([("model", .str cfg.name), ("messages", .arr messages),
             ("stream", .bool false),
             ("options", .obj [("temperature", .num cfg.temperature),
                               ("num_predict", .num (cfg.max_tokens : ℚ)),
                               ("top_p", .num cfg.top_p)])]
            ++ (if toolsTruthy tools then [("tools", .arr (tools.getD []))] else []))
  | .openai =>
      .obj ([("model", .str cfg.name), ("messages", .arr messages),
             ("temperature", .num cfg.temperature),
             ("max_tokens", .num (cfg.max_tokens : ℚ)),
             ("top_p", .num cfg.top_p)]
            ++ (if toolsTruthy tools then [("tools", .arr (tools.getD []))] else []))

/-- Transport-level failures raised by the HTTP library (`httpx.HTTPError`
subclasses caught by `generate`): connection errors and timeouts. -/
inductive TransportErr where
  | connectError (msg : List Char)
  | timeout (msg : List Char)

/-- Models `str(exc)` for a transport failure. -/
def transportErrMsg : TransportErr → List Char
  | .connectError m => m
  | .timeout m => m

/-- The 2xx success predicate used by `response.raise_for_status()`. -/
def httpSuccess (status : ℕ) : Bool :=
  decide (200 ≤ status) && decide (status < 300)

/-- Models `str(exc)` for the `HTTPStatusError` raised by `raise_for_status`. -/
def statusErrMsg (status : ℕ) : List Char :=
  ("HTTP status error: ").toList ++ (Nat.repr status).toList

/-- Embeds `ModelClient.generate`: build the payload, perform one POST through an
abstract transport, wrap any transport failure or non-2xx status into the
typed `ModelClientError`, then parse the JSON body. -/
def generate (net : JVal → Except TransportErr (ℕ × JVal))
    (cfg : ModelConfig) (messages : List JVal) (tools : Option (List JVal)) :
    Except PErr ModelResponse :=
  let payload := buildPayload cfg messages tools
  match net payload with
  | .error e => .error (.client (transportErrMsg e))
  | .ok (status, body) =>
      if httpSuccess status then parseResponse cfg.api_type body
      else .error (.client (statusErrMsg status))

/-! ## Clarity-issue reconciliation (`app/services/analysis.py`) -/

/-- Modelled from the spec: the `AnalysisIssue` (ClarityIssue) record whose
class body is not under `src/` — "verified offset (int ≥ 0), length
(int > 0), the exact quoted substring, an issue-type tag, a suggestion
string, a confidence score"; fields hold exactly what the loop in
`AnalysisService.analyze` passes to the constructor. -/
structure AnalysisIssue where
  offset : ℕ
  length : ℕ
  quoted_text : List Char
  issue_type : List Char
  suggestion : List Char
  confidence : ℚ

/-- Modelled from the spec: the `AnalysisResponse` record (issues plus
latency in milliseconds), class body not under `src/`. -/
structure AnalysisResponse where
  issues : List AnalysisIssue
  latency_ms : ℚ

/-- Python `float(x)` on the values a JSON field can hold; numeric strings
are not needed by any theorem and are treated as a shape error. -/
def pyFloat : JVal → Except PErr ℚ
  | .num q => .ok q
  | .bool b => .ok (if b then 1 else 0)
  | _ => .error .typeErr

/-- Equality test `v == "lit"` between a JSON value and a Python string
literal (`False` for non-strings, never raising). -/
def jEqStr (v : JVal) (lit : String) : Bool :=
  match v with
  | .str s => s = lit.toList
  | _ => false

/-- One iteration of the issue loop in `AnalysisService.analyze`
(lines 144-167): extract the fields with their `.get` defaults, coerce
confidence through `float`, skip entries with falsy quoted text or
suggestion, locate the quotation with `text.find`, and construct the
issue only when the quotation is found. -/
def processItem (text : List Char) (item : JVal) :
    Except PErr (Option AnalysisIssue) :=
  match item with
  | .obj _ => do
      let quoted := (jGet item "quoted_text").getD (.str [])
      let ity := (jGet item "issue_type").getD (.str ("complexity").toList)
      let sugg := (jGet item "suggestion").getD (.str [])
      let conf ← pyFloat ((jGet item "confidence").getD (.num 1))
      if jTruthy quoted && jTruthy sugg then
        match quoted with
        | .str q =>
            match pyFind text q with
            | some off =>
                match ity, sugg with
                | .str itys, .str suggs =>
                    .ok (some ⟨off, q.length, q, itys, suggs, conf⟩)
                | _, _ => .error .typeErr
            | none => .ok none
        | _ => .error .typeErr
      else
        .ok none
  | _ => .error .typeErr

/-- The issue loop of `AnalysisService.analyze` over one tool call's
`issues` list, in reported order. -/
def reconcileItems (text : List Char) : List JVal → Except PErr (List AnalysisIssue)
  | [] => .ok []
  | item :: rest => do
      let r ← processItem text item
      let tail ← reconcileItems text rest
      match r with
      | some iss => .ok (iss :: tail)
      | none => .ok tail

/-- The tool-call loop of `AnalysisService.analyze` (lines 140-169): tool
calls not named `report_clarity_issues` are skipped; for the expected tool
the `issues` argument (default `[]`) is iterated. -/
def reconcileToolCalls (text : List Char) : List ToolCall → Except PErr (List AnalysisIssue)
  | [] => .ok []
  | tc :: rest =>
      if jEqStr tc.name "report_clarity_issues" then
        match tc.arguments with
        | .obj _ =>
            match (jGet tc.arguments "issues").getD (.arr []) with
            | .arr items => do
                let here ← reconcileItems text items
                let tail ← reconcileToolCalls text rest
                .ok (here ++ tail)
            | _ => .error .typeErr
        | _ => .error .typeErr
      else
        reconcileToolCalls text rest

/-- Embeds `AnalysisService.analyze` after prompt assembly (lines 125-180): any
exception from the model call is caught and converted into a successful
empty-issues response with latency 0; otherwise the reconciliation loop
runs over the returned tool calls. -/
def analyze (outcome : Except PErr ModelResponse) (latency : ℚ)
    (text : List Char) : Except PErr AnalysisResponse :=
  match outcome with
  | .error _ => .ok ⟨[], 0⟩
  | .ok resp =>
      match resp.tool_calls with
      | some tcs => (reconcileToolCalls text tcs).map (fun iss => ⟨iss, latency⟩)
      | none => .ok ⟨[], latency⟩

/-! ## Edit orchestration (`app/prompts.py`, `app/models/routers.py`,
`app/services/editing.py`) -/

/-- Embeds `Mode = Literal["proofread", "rewrite", "tone", "technical"]`. -/
inductive Mode where
  | proofread
  | rewrite
  | tone
  | technical
  deriving DecidableEq, Repr

/-- Embeds `ToneStyle = Literal["professional", "concise", "friendly"]`. -/
inductive ToneStyle where
  | professional
  | concise
  | friendly
  deriving DecidableEq, Repr

/-- Embeds `resolve_model_key` (`app/models/routers.py`). -/
def resolve_model_key : Mode → List Char
  | .proofread => ("grammar").toList
  | .rewrite => ("general").toList
  | .tone => ("general").toList
  | .technical => ("general").toList

/-- The `PROMPTS[mode]["system"]` strings from `app/prompts.py`. -/
def promptSystem : Mode → List Char
  | .proofread =>
      ("You are a meticulous copy editor. Fix grammar, spelling, and punctuation errors. Make the smallest changes possible while preserving voice and meaning. Return only the corrected text.").toList
  | .rewrite =>
      ("You rewrite text to improve clarity and flow. Reduce redundancy, keep the tone neutral, and preserve original intent.").toList
  | .technical =>
      ("You are a cybersecurity-focused technical editor. Improve precision and clarity while keeping all technical facts intact. Assume the reader is a security practitioner or researcher.").toList
  | .tone =>
      ("You adjust tone according to the requested style while maintaining the underlying facts. Do not introduce new information. Return only the updated text.").toList

/-- The `TONE_PROMPTS` strings from `app/prompts.py`. -/
def tonePrompt : ToneStyle → List Char
  | .professional =>
      ("Rewrite the text with a confident, respectful professional voice suitable for business communication.").toList
  | .concise =>
      ("Rewrite the text so it is brief, direct, and free of filler while staying polite.").toList
  | .friendly =>
      ("Rewrite the text so it sounds approachable, warm, and encouraging.").toList

/-- A chat message (`{"role": ..., "content": ...}` dict). -/
structure ChatMsg where
  role : List Char
  content : List Char

/-- Embeds `build_messages` (`app/prompts.py`): raises `ValueError` when mode is
`tone` and no tone was supplied; otherwise assembles the system prompt
(with the tone clause and the trimmed extra instructions when present)
and the user prompt around the trimmed text. -/
def build_messages (text : List Char) (mode : Mode) (tone : Option ToneStyle)
    (extra_instructions : Option (List Char)) :
    Except (List Char) (List ChatMsg) := do
  let sys0 := promptSystem mode
  let sys1 ←
    (if mode = Mode.tone then
      match tone with
      | none => Except.error ("Tone mode requires 'tone' to be provided.").toList
      | some t => .ok (sys0 ++ (" ").toList ++ tonePrompt t)
    else .ok sys0)
  let sys2 :=
    match extra_instructions with
    | some e =>
        if e = [] then sys1
        else sys1 ++ (" Additional guidance: ").toList ++ pyStrip e
    | none => sys1
  let userMsg :=
    ("Apply the instructions to the text below and respond with edited text only.\n\nText:\n").toList
      ++ pyStrip text
  .ok [⟨("system").toList, sys2⟩, ⟨("user").toList, userMsg⟩]

/-- Errors surfaced by `EditingService.edit`: the `ValueError` from
`build_messages`, or whatever the model client raised. -/
inductive EditErr where
  | validation (msg : List Char)
  | model (e : PErr)

/-- The `EditResult` dataclass from `app/services/editing.py`. -/
structure EditOutput where
  mode : Mode
  model_config : ModelConfig
  output_text : JVal
  latency_ms : ℚ

/-- Embeds `EditingService.edit`: resolve the task and model configuration, build
the messages (which may raise before any network interaction), then invoke
the model client exactly once.  The second component counts the network
calls performed, the spec's substitute-network-layer call counter. -/
def edit (gen : List ChatMsg → Except PErr ModelResponse)
    (cfg : RuntimeConfig) (text : List Char) (mode : Mode)
    (tone : Option ToneStyle) (extra_instructions : Option (List Char))
    (latency : ℚ) : Except EditErr EditOutput × ℕ :=
  let model_config := get_model_config cfg (resolve_model_key mode)
  match build_messages text mode tone extra_instructions with
  | .error e => (.error (.validation e), 0)
  | .ok msgs =>
      match gen msgs with
      | .error e => (.error (.model e), 1)
      | .ok resp => (.ok ⟨mode, model_config, resp.content, latency⟩, 1)

/-- A substring predicate: `q` occurs (contiguously) somewhere in `t`. -/
def IsSubstr (q t : List Char) : Prop :=
  ∃ i, q <+: t.drop i

/-- The stored-base-URL invariant: the string does not end with `/`. -/
def NoTrailingSlash (s : List Char) : Prop :=
  ∀ (h : s ≠ []), s.getLast h ≠ '/'

/-- A string equal to its own Python `strip()`. -/
def IsTrimmed (s : List Char) : Prop :=
  pyStrip s = s

/-! ## Basic facts about the string primitives -/

/-- Head of `dropWhile p` never satisfies `p`. -/
theorem head_of_dropWhile_false {α : Type} (p : α → Bool) :
    ∀ (l : List α) (a : α) (t : List α), l.dropWhile p = a :: t → p a = false := by
  intro l
  induction l with
  | nil => intro a t h; simp [List.dropWhile] at h
  | cons x xs ih =>
      intro a t h
      rw [List.dropWhile_cons] at h
      by_cases hx : p x
      · simp [hx] at h; exact ih a t h
      · simp [hx] at h; rw [← h.1]; simpa using hx

/-- Idempotence: `pyStrip` is idempotent, i.e. its output starts and ends with non-whitespace. -/
theorem pyStrip_idem (s : List Char) : pyStrip (pyStrip s) = pyStrip s := by
  unfold pyStrip
  have h1 : ((s.dropWhile isPySpace).rdropWhile isPySpace).dropWhile isPySpace
      = (s.dropWhile isPySpace).rdropWhile isPySpace := by
    rcases hpre : (s.dropWhile isPySpace).rdropWhile isPySpace with _ | ⟨a, t⟩
    · simp
    · have hpref : (s.dropWhile isPySpace).rdropWhile isPySpace <+: s.dropWhile isPySpace :=
        List.rdropWhile_prefix _ _
      rw [hpre] at hpref
      obtain ⟨rest, hrest⟩ := hpref
      have ha : isPySpace a = false := by
        apply head_of_dropWhile_false isPySpace s a (t ++ rest)
        rw [← hrest]; rfl
      rw [List.dropWhile_cons, ha]
      simp
  rw [h1, List.rdropWhile_idempotent]

/-- The output of `pyRstripSlash` never ends with a slash. -/
theorem pyRstripSlash_no_slash (s : List Char) (h : pyRstripSlash s ≠ []) :
    (pyRstripSlash s).getLast h ≠ '/' := by
  have := List.rdropWhile_last_not (fun c => decide (c = '/')) s (by
    simpa [pyRstripSlash] using h)
  simpa [pyRstripSlash] using this

/-- A successful `pyFind` result is an occurrence of the needle. -/
theorem pyFind_occurrence :
    ∀ (t q : List Char) (i : ℕ), pyFind t q = some i → q <+: t.drop i := by
  intro t
  induction t with
  | nil =>
      intro q i h
      by_cases hp : q <+: ([] : List Char)
      · simp [pyFind, hp] at h; subst h; simpa using hp
      · simp [pyFind, hp] at h
  | cons c t' ih =>
      intro q i h
      by_cases hp : q <+: (c :: t')
      · simp [pyFind, hp] at h; subst h; simpa using hp
      · simp [pyFind, hp] at h
        obtain ⟨j, hj, hji⟩ := h
        subst hji
        simpa using ih q j hj

/-- Minimality: `pyFind` returns the first occurrence; no earlier index matches. -/
theorem pyFind_minimal :
    ∀ (t q : List Char) (i : ℕ), pyFind t q = some i →
      ∀ j, j < i → ¬ q <+: t.drop j := by
  intro t
  induction t with
  | nil =>
      intro q i h j hj
      by_cases hp : q <+: ([] : List Char)
      · simp [pyFind, hp] at h; omega
      · simp [pyFind, hp] at h
  | cons c t' ih =>
      intro q i h j hj
      by_cases hp : q <+: (c :: t')
      · simp [pyFind, hp] at h; omega
      · simp [pyFind, hp] at h
        obtain ⟨k, hk, hki⟩ := h
        subst hki
        match j with
        | 0 => simpa using hp
        | j' + 1 =>
            have := ih q k hk j' (by omega)
            simpa using this

/-- Completeness: `pyFind` succeeds whenever the needle occurs somewhere. -/
theorem pyFind_isSome_of_occurrence :
    ∀ (t q : List Char) (i : ℕ), q <+: t.drop i → (pyFind t q).isSome := by
  intro t
  induction t with
  | nil =>
      intro q i h
      simp at h
      simp [pyFind, h]
  | cons c t' ih =>
      intro q i h
      by_cases hp : q <+: (c :: t')
      · simp [pyFind, hp]
      · match i with
        | 0 => simp at h; exact absurd h hp
        | i' + 1 =>
            simp at h
            have := ih q i' h
            simp [pyFind, hp, Option.isSome_map]
            exact this

/-- Characterisation: `pyFind` succeeds exactly on substrings. -/
theorem pyFind_isSome_iff (t q : List Char) :
    (pyFind t q).isSome = true ↔ IsSubstr q t := by
  constructor
  · intro h
    rcases ho : pyFind t q with _ | i
    · rw [ho] at h; simp at h
    · exact ⟨i, pyFind_occurrence t q i ho⟩
  · rintro ⟨i, hi⟩
    exact pyFind_isSome_of_occurrence t q i hi

/-- The slice at an occurrence recovers the needle. -/
theorem take_of_occurrence {q l : List Char} (h : q <+: l) :
    l.take q.length = q :=
  (List.prefix_iff_eq_take.mp h).symm

/-! ## Claim theorems -/

/-- C7: for every runtime configuration, resolving the precision task
("grammar", and "analysis" which reuses it) yields the grammar-model name
with temperature 0.1, max-tokens 512, top-p 0.95, and resolving the general
task yields the general-model name with temperature 0.5, max-tokens 768,
top-p 0.9; both endpoints equal `{base_url}/api/chat`. -/
theorem get_model_config_task_parameters (cfg : RuntimeConfig) :
    get_model_config cfg (("analysis").toList) = get_model_config cfg (("grammar").toList) ∧
    (get_model_config cfg (("analysis").toList)).name = cfg.grammar_model ∧
    (get_model_config cfg (("analysis").toList)).temperature = 1/10 ∧
    (get_model_config cfg (("analysis").toList)).max_tokens = 512 ∧
    (get_model_config cfg (("analysis").toList)).top_p = 95/100 ∧
    (get_model_config cfg (("analysis").toList)).endpoint
      = cfg.ollama_base_url ++ ("/api/chat").toList ∧
    (get_model_config cfg (("general").toList)).name = cfg.general_model ∧
    (get_model_config cfg (("general").toList)).temperature = 1/2 ∧
    (get_model_config cfg (("general").toList)).max_tokens = 768 ∧
    (get_model_config cfg (("general").toList)).top_p = 9/10 ∧
    (get_model_config cfg (("general").toList)).endpoint
      = cfg.ollama_base_url ++ ("/api/chat").toList := by
  have hA : ((("analysis").toList = ("grammar").toList)
      ∨ (("analysis").toList = ("analysis").toList)) := by decide
  have hGr : ((("grammar").toList = ("grammar").toList)
      ∨ (("grammar").toList = ("analysis").toList)) := by decide
  have hGe : ¬ ((("general").toList = ("grammar").toList)
      ∨ (("general").toList = ("analysis").toList)) := by decide
  unfold get_model_config
  rw [if_pos hA, if_pos hGr, if_neg hGe]
  exact ⟨rfl, rfl, rfl, rfl, rfl, rfl, rfl, rfl, rfl, rfl, rfl⟩

/-- C5 counterexample: a configuration reachable through `_load` (base URL
file value `"http://x /"`) has its base URL re-normalised — hence changed —
by an update that does not specify the base URL at all. -/
theorem update_unspecified_base_url_changes :
    (update_runtime_config
        (loadRuntimeConfig (("http://x /").toList) (("g").toList) (("m").toList))
        none (some (("g2").toList)) none).ollama_base_url
      ≠ (loadRuntimeConfig (("http://x /").toList) (("g").toList) (("m").toList)).ollama_base_url := by
  decide

/-- C5 (amended): on a normalisation-stable current configuration, update
followed by get keeps every unspecified (or empty) field at its pre-update
value, sets every specified non-empty field to the trimmed (and, for the
base URL, slash-stripped) input, and update returns the stored value. -/
theorem update_then_get_partial_update (cfg : RuntimeConfig)
    (b g gn : Option (List Char))
    (hb : normBase cfg.ollama_base_url = cfg.ollama_base_url)
    (hg : pyStrip cfg.grammar_model = cfg.grammar_model)
    (hgn : pyStrip cfg.general_model = cfg.general_model) :
    get_runtime_config (update_runtime_config cfg b g gn) = update_runtime_config cfg b g gn ∧
    ((b = none ∨ b = some []) →
      (update_runtime_config cfg b g gn).ollama_base_url = cfg.ollama_base_url) ∧
    (∀ s, b = some s → s ≠ [] →
      (update_runtime_config cfg b g gn).ollama_base_url = normBase s) ∧
    ((g = none ∨ g = some []) →
      (update_runtime_config cfg b g gn).grammar_model = cfg.grammar_model) ∧
    (∀ s, g = some s → s ≠ [] →
      (update_runtime_config cfg b g gn).grammar_model = pyStrip s) ∧
    ((gn = none ∨ gn = some []) →
      (update_runtime_config cfg b g gn).general_model = cfg.general_model) ∧
    (∀ s, gn = some s → s ≠ [] →
      (update_runtime_config cfg b g gn).general_model = pyStrip s) := by
  refine ⟨rfl, ?_, ?_, ?_, ?_, ?_, ?_⟩
  · rintro (rfl | rfl) <;> simp [update_runtime_config, pyOr, hb]
  · rintro s rfl hs; simp [update_runtime_config, pyOr, hs]
  · rintro (rfl | rfl) <;> simp [update_runtime_config, pyOr, hg]
  · rintro s rfl hs; simp [update_runtime_config, pyOr, hs]
  · rintro (rfl | rfl) <;> simp [update_runtime_config, pyOr, hgn]
  · rintro s rfl hs; simp [update_runtime_config, pyOr, hs]

/-- C5 witness: the amended update/get law evaluated on a freshly loaded
configuration with one specified, one unspecified and one empty field. -/
theorem update_then_get_partial_update_witness :
    (normBase (loadRuntimeConfig (("http://h").toList) (("g1").toList) (("g2").toList)).ollama_base_url
      = (loadRuntimeConfig (("http://h").toList) (("g1").toList) (("g2").toList)).ollama_base_url) ∧
    (pyStrip (loadRuntimeConfig (("http://h").toList) (("g1").toList) (("g2").toList)).grammar_model
      = (loadRuntimeConfig (("http://h").toList) (("g1").toList) (("g2").toList)).grammar_model) ∧
    (pyStrip (loadRuntimeConfig (("http://h").toList) (("g1").toList) (("g2").toList)).general_model
      = (loadRuntimeConfig (("http://h").toList) (("g1").toList) (("g2").toList)).general_model) ∧
    (get_runtime_config (update_runtime_config
        (loadRuntimeConfig (("http://h").toList) (("g1").toList) (("g2").toList))
        (some ((" http://u/ ").toList)) none (some []))
      = update_runtime_config
        (loadRuntimeConfig (("http://h").toList) (("g1").toList) (("g2").toList))
        (some ((" http://u/ ").toList)) none (some []) ∧
    (((some ((" http://u/ ").toList) : Option (List Char)) = none
        ∨ (some ((" http://u/ ").toList) : Option (List Char)) = some []) →
      (update_runtime_config
        (loadRuntimeConfig (("http://h").toList) (("g1").toList) (("g2").toList))
        (some ((" http://u/ ").toList)) none (some [])).ollama_base_url
        = (loadRuntimeConfig (("http://h").toList) (("g1").toList) (("g2").toList)).ollama_base_url) ∧
    (∀ s, (some ((" http://u/ ").toList) : Option (List Char)) = some s → s ≠ [] →
      (update_runtime_config
        (loadRuntimeConfig (("http://h").toList) (("g1").toList) (("g2").toList))
        (some ((" http://u/ ").toList)) none (some [])).ollama_base_url = normBase s) ∧
    (((none : Option (List Char)) = none ∨ (none : Option (List Char)) = some []) →
      (update_runtime_config
        (loadRuntimeConfig (("http://h").toList) (("g1").toList) (("g2").toList))
        (some ((" http://u/ ").toList)) none (some [])).grammar_model
        = (loadRuntimeConfig (("http://h").toList) (("g1").toList) (("g2").toList)).grammar_model) ∧
    (∀ s, (none : Option (List Char)) = some s → s ≠ [] →
      (update_runtime_config
        (loadRuntimeConfig (("http://h").toList) (("g1").toList) (("g2").toList))
        (some ((" http://u/ ").toList)) none (some [])).grammar_model = pyStrip s) ∧
    (((some [] : Option (List Char)) = none ∨ (some [] : Option (List Char)) = some []) →
      (update_runtime_config
        (loadRuntimeConfig (("http://h").toList) (("g1").toList) (("g2").toList))
        (some ((" http://u/ ").toList)) none (some [])).general_model
        = (loadRuntimeConfig (("http://h").toList) (("g1").toList) (("g2").toList)).general_model) ∧
    (∀ s, (some [] : Option (List Char)) = some s → s ≠ [] →
      (update_runtime_config
        (loadRuntimeConfig (("http://h").toList) (("g1").toList) (("g2").toList))
        (some ((" http://u/ ").toList)) none (some [])).general_model = pyStrip s)) :=
  ⟨by decide, by decide, by decide,
   update_then_get_partial_update
     (loadRuntimeConfig (("http://h").toList) (("g1").toList) (("g2").toList))
     (some ((" http://u/ ").toList)) none (some [])
     (by decide) (by decide) (by decide)⟩

/-- C6 counterexample: a whitespace-only supplied model identifier is truthy,
so it is not treated as unspecified; after trimming, the stored grammar
model becomes the empty string, violating the non-emptiness invariant. -/
theorem update_whitespace_model_becomes_empty :
    (update_runtime_config
        (loadRuntimeConfig (("http://h").toList) (("g1").toList) (("g2").toList))
        none (some (("   ").toList)) none).grammar_model = [] := by
  decide

/-- C6 (amended): after load and after every update, for all string inputs,
the stored base URL has no trailing slash and both model identifiers are
trimmed; non-emptiness of the identifiers is not guaranteed. -/
theorem config_invariant_no_slash_trimmed (base grammar general : List Char)
    (cfg : RuntimeConfig) (b g gn : Option (List Char)) :
    (NoTrailingSlash (loadRuntimeConfig base grammar general).ollama_base_url ∧
     IsTrimmed (loadRuntimeConfig base grammar general).grammar_model ∧
     IsTrimmed (loadRuntimeConfig base grammar general).general_model) ∧
    (NoTrailingSlash (update_runtime_config cfg b g gn).ollama_base_url ∧
     IsTrimmed (update_runtime_config cfg b g gn).grammar_model ∧
     IsTrimmed (update_runtime_config cfg b g gn).general_model) := by
  refine ⟨⟨?_, pyStrip_idem _, pyStrip_idem _⟩, ⟨?_, pyStrip_idem _, pyStrip_idem _⟩⟩
  · exact fun h => pyRstripSlash_no_slash _ h
  · exact fun h => pyRstripSlash_no_slash _ h

/-- C9: editing in tone mode with no tone supplied fails validation inside
`build_messages`, before the model client is ever invoked: the network call
counter stays at zero for every substitute network layer. -/
theorem edit_tone_without_tone_no_network
    (gen : List ChatMsg → Except PErr ModelResponse) (cfg : RuntimeConfig)
    (text : List Char) (extra : Option (List Char)) (latency : ℚ) :
    build_messages text Mode.tone none extra
        = Except.error (("Tone mode requires 'tone' to be provided.").toList) ∧
    edit gen cfg text Mode.tone none extra latency
        = (Except.error (EditErr.validation
            (("Tone mode requires 'tone' to be provided.").toList)), 0) :=
  ⟨rfl, rfl⟩

/-- C2 counterexample: a transport failure of the model call is converted by
`analyze` into a successful response with no issues and latency 0 — it does
not propagate to the caller as an error. -/
theorem analyze_transport_error_returns_empty_ok :
    analyze (Except.error (PErr.client (("connection refused").toList))) 5
        (("some text").toList)
      = Except.ok ⟨[], 0⟩ := rfl

/-- C2 (amended): `AnalysisService.analyze` converts every failed model
call — transport failures included — into a successful empty-issues
response with latency 0; such failures never propagate. -/
theorem analyze_swallows_model_failures (e : PErr) (latency : ℚ)
    (text : List Char) :
    analyze (Except.error e) latency text = Except.ok ⟨[], 0⟩ := rfl

end LocalScribe

namespace LocalScribe

/-- C4: every transport-level failure of `generate` — connection error,
timeout (both via the transport error branch) or non-2xx HTTP status (via
`raise_for_status`) — is surfaced as the single typed client error
(`ModelClientError`) carrying the underlying cause; the transport library's
native exception type (`TransportErr`) never appears in the result. -/
theorem generate_wraps_transport_failures
    (net : JVal → Except TransportErr (ℕ × JVal)) (cfg : ModelConfig)
    (messages : List JVal) (tools : Option (List JVal)) :
    (∀ e, net (buildPayload cfg messages tools) = .error e →
        generate net cfg messages tools = .error (.client (transportErrMsg e))) ∧
    (∀ status body, net (buildPayload cfg messages tools) = .ok (status, body) →
        httpSuccess status = false →
        generate net cfg messages tools = .error (.client (statusErrMsg status))) := by
  constructor
  · intro e he
    simp only [generate, he]
  · intro status body h hs
    simp only [generate, h, hs]
    simp

set_option linter.unnecessarySeqFocus false in
/-- Unfolding view of one step of the shared tool-call loop. -/
theorem parseToolCallList_cons (tc : JVal) (rest : List JVal) :
    parseToolCallList (tc :: rest) =
      (match tc with
      | .obj _ =>
          if jTruthy ((jGet tc "function").getD (.obj [])) then
            match (jGet tc "function").getD (.obj []) with
            | .obj fk => (parseToolCallList rest).map
                (fun tail =>
                  ⟨(jGet (.obj fk) "name").getD (.str []),
                   (jGet (.obj fk) "arguments").getD (.obj [])⟩ :: tail)
            | _ => .error .typeErr
          else parseToolCallList rest
      | _ => .error .typeErr) := by
  cases tc with
  | obj kvs =>
      simp only [parseToolCallList]
      split
      · rename_i htr
        cases hf : (jGet (.obj kvs) "function").getD (.obj []) <;>
          simp [hf] at htr ⊢ <;>
          try (cases hp : parseToolCallList rest <;>
            simp [Except.map, hp, Bind.bind, Except.bind])
      · rfl
  | null => rfl
  | bool b => rfl
  | num q => rfl
  | str s => rfl
  | arr xs => rfl


/-- Concatenation law for the tool-call loop: successfully parsed entry
lists are emitted in response order. -/
theorem parseToolCallList_append :
    ∀ (xs ys : List JVal) (l₁ l₂ : List ToolCall),
      parseToolCallList xs = .ok l₁ → parseToolCallList ys = .ok l₂ →
      parseToolCallList (xs ++ ys) = .ok (l₁ ++ l₂) := by
  intro xs
  induction xs with
  | nil =>
      intro ys l₁ l₂ h1 h2
      simp [parseToolCallList] at h1
      subst h1
      simpa using h2
  | cons tc rest ih =>
      intro ys l₁ l₂ h1 h2
      rw [List.cons_append, parseToolCallList_cons]
      rw [parseToolCallList_cons] at h1
      cases tc with
      | obj kvs =>
          simp only at h1 ⊢
          split at h1
          · rename_i htr
            rw [if_pos htr]
            split at h1
            · rename_i fk hf
              cases hp : parseToolCallList rest with
              | error e => rw [hp] at h1; simp [Except.map] at h1
              | ok tl =>
                  rw [hp] at h1
                  simp [Except.map] at h1
                  subst h1
                  rw [ih ys tl l₂ hp h2]
                  simp [Except.map]
            · simp at h1
          · rename_i htr
            rw [if_neg htr]
            exact ih ys l₁ l₂ h1 h2
      | null => simp at h1
      | bool b => simp at h1
      | num q => simp at h1
      | str s => simp at h1
      | arr zs => simp at h1

/-- C10: under either backend kind, a successfully parsed response carries
`tool_calls = none` exactly when no tool invocation was parsed — never an
empty list — and otherwise the non-empty parsed list, which the loop emits
in response order (concatenation law). -/
theorem parse_response_tool_calls_normalisation (api : APIType) (p : JVal)
    (r : ModelResponse) (h : parseResponse api p = .ok r) :
    (∃ c calls, parseMessage api p = .ok (c, calls) ∧ r.content = c ∧
        r.tool_calls = (if calls.isEmpty then none else some calls)) ∧
    r.tool_calls ≠ some [] ∧
    (∀ xs ys l₁ l₂, parseToolCallList xs = .ok l₁ → parseToolCallList ys = .ok l₂ →
        parseToolCallList (xs ++ ys) = .ok (l₁ ++ l₂)) := by
  unfold parseResponse at h
  cases hm : parseMessage api p with
  | error e => rw [hm] at h; simp [Except.map] at h
  | ok pr =>
      rw [hm] at h
      simp [Except.map] at h
      obtain ⟨c, calls⟩ := pr
      refine ⟨⟨c, calls, rfl, ?_, ?_⟩, ?_, parseToolCallList_append⟩
      · rw [← h]
      · rw [← h]
      · rw [← h]
        by_cases hc : calls.isEmpty
        · simp [hc]
        · simp [hc]
          intro habs
          subst habs
          simp at hc


/-- C3 counterexample: a backend-kind-B response whose tool-call arguments
arrive as a serialized string that is not valid JSON is parsed without any
parse step being applied to the arguments: the invocation is not dropped
and its arguments remain the raw string, not a structured mapping. -/
theorem openai_string_arguments_pass_through_unparsed :
    parseResponse .openai
      (JVal.obj [("choices", JVal.arr [JVal.obj [("message", JVal.obj
        [("content", JVal.null),
         ("tool_calls", JVal.arr [JVal.obj [("function", JVal.obj
            [("name", JVal.str (("f").toList)),
             ("arguments", JVal.str (("not valid json").toList))])]])])]])])
      = Except.ok ⟨JVal.str [],
          some [⟨JVal.str (("f").toList), JVal.str (("not valid json").toList)⟩]⟩ := rfl

/-- C3 (amended): the tool-call loop used by the backend-kind-B branch
passes string-serialized arguments through verbatim — no parse step is
attempted and the invocation is never dropped on account of its arguments
being a string. -/
theorem tool_arguments_kept_verbatim (nm : JVal) (s : List Char) (rest : List JVal) :
    parseToolCallList
        (JVal.obj [("function", JVal.obj [("name", nm), ("arguments", JVal.str s)])] :: rest)
      = (parseToolCallList rest).map
          (fun tail => (⟨nm, JVal.str s⟩ : ToolCall) :: tail) := by
  rw [parseToolCallList_cons]
  rfl

/-- C8 counterexample: an empty tool list is supplied (`isSome`), yet no
`tools` key is attached to the payload, refuting the attached-iff-supplied
biconditional. -/
theorem build_payload_empty_tools_no_key :
    (some ([] : List JVal)).isSome = true ∧
    jGet (buildPayload ⟨("m").toList, ("e").toList, .ollama, 1/10, 512, 95/100⟩ [] (some []))
        "tools" = none := ⟨rfl, rfl⟩

/-- C8 (amended): the request body is exactly the backend-specific envelope
(per-kind key sequence), messages are passed through verbatim, and a
`tools` key is attached iff a non-empty tool list was supplied. -/
theorem build_payload_envelope (cfg : ModelConfig) (messages : List JVal)
    (tools : Option (List JVal)) :
    buildPayload cfg messages tools = JVal.obj (
      (match cfg.api_type with
       | .ollama =>
          [("model", JVal.str cfg.name), ("messages", JVal.arr messages),
           ("stream", JVal.bool false),
           ("options", JVal.obj [("temperature", JVal.num cfg.temperature),
                                 ("num_predict", JVal.num (cfg.max_tokens : ℚ)),
                                 ("top_p", JVal.num cfg.top_p)])]
       | .openai =>
          [("model", JVal.str cfg.name), ("messages", JVal.arr messages),
           ("temperature", JVal.num cfg.temperature),
           ("max_tokens", JVal.num (cfg.max_tokens : ℚ)),
           ("top_p", JVal.num cfg.top_p)])
      ++ (if toolsTruthy tools then [("tools", JVal.arr (tools.getD []))] else [])) ∧
    (jGet (buildPayload cfg messages tools) "messages" = some (JVal.arr messages)) ∧
    (jGet (buildPayload cfg messages tools) "tools"
      = if toolsTruthy tools then some (JVal.arr (tools.getD [])) else none) ∧
    (toolsTruthy tools = true ↔ ∃ x xs, tools = some (x :: xs)) := by
  obtain ⟨nm, ep, api, tp, mt, pp⟩ := cfg
  rcases tools with _ | ⟨_ | ⟨x, xs⟩⟩ <;> cases api <;>
    refine ⟨rfl, rfl, rfl, ?_⟩ <;> simp [toolsTruthy]


/-- C4 witness: a connection failure and a 500 status on a concrete
configuration, both surfaced as the typed client error. -/
theorem generate_wraps_transport_failures_witness :
    ((fun _ => Except.error (TransportErr.connectError (("boom").toList)) :
        JVal → Except TransportErr (ℕ × JVal))
        (buildPayload ⟨("m").toList, ("e").toList, .ollama, 1, 10, 1⟩ [] none)
      = Except.error (TransportErr.connectError (("boom").toList))) ∧
    ((fun _ => Except.ok ((500 : ℕ), JVal.null) :
        JVal → Except TransportErr (ℕ × JVal))
        (buildPayload ⟨("m").toList, ("e").toList, .ollama, 1, 10, 1⟩ [] none)
      = Except.ok ((500 : ℕ), JVal.null)) ∧
    httpSuccess 500 = false ∧
    generate (fun _ => Except.error (TransportErr.connectError (("boom").toList)))
        ⟨("m").toList, ("e").toList, .ollama, 1, 10, 1⟩ [] none
      = Except.error (PErr.client (("boom").toList)) ∧
    generate (fun _ => Except.ok ((500 : ℕ), JVal.null))
        ⟨("m").toList, ("e").toList, .ollama, 1, 10, 1⟩ [] none
      = Except.error (PErr.client (statusErrMsg 500)) :=
  ⟨rfl, rfl, by decide,
   (generate_wraps_transport_failures
      (fun _ => Except.error (TransportErr.connectError (("boom").toList)))
      ⟨("m").toList, ("e").toList, .ollama, 1, 10, 1⟩ [] none).1
     (TransportErr.connectError (("boom").toList)) rfl,
   (generate_wraps_transport_failures
      (fun _ => Except.ok ((500 : ℕ), JVal.null))
      ⟨("m").toList, ("e").toList, .ollama, 1, 10, 1⟩ [] none).2
     500 JVal.null rfl (by decide)⟩

/-- C10 witness: a concrete Ollama response with one tool call. -/
theorem parse_response_tool_calls_normalisation_witness :
    parseResponse .ollama
        (JVal.obj [("message", JVal.obj
          [("content", JVal.str (("hi ").toList)),
           ("tool_calls", JVal.arr [JVal.obj [("function", JVal.obj
              [("name", JVal.str (("t").toList)),
               ("arguments", JVal.obj [])])]])])])
      = Except.ok (⟨JVal.str (("hi").toList),
          some [⟨JVal.str (("t").toList), JVal.obj []⟩]⟩ : ModelResponse) ∧
    ((∃ c calls, parseMessage .ollama
        (JVal.obj [("message", JVal.obj
          [("content", JVal.str (("hi ").toList)),
           ("tool_calls", JVal.arr [JVal.obj [("function", JVal.obj
              [("name", JVal.str (("t").toList)),
               ("arguments", JVal.obj [])])]])])])
        = Except.ok (c, calls) ∧
      (⟨JVal.str (("hi").toList),
          some [⟨JVal.str (("t").toList), JVal.obj []⟩]⟩ : ModelResponse).content = c ∧
      (⟨JVal.str (("hi").toList),
          some [⟨JVal.str (("t").toList), JVal.obj []⟩]⟩ : ModelResponse).tool_calls
        = (if calls.isEmpty then none else some calls)) ∧
     (⟨JVal.str (("hi").toList),
          some [⟨JVal.str (("t").toList), JVal.obj []⟩]⟩ : ModelResponse).tool_calls
        ≠ some [] ∧
     (∀ xs ys l₁ l₂, parseToolCallList xs = .ok l₁ → parseToolCallList ys = .ok l₂ →
        parseToolCallList (xs ++ ys) = .ok (l₁ ++ l₂))) :=
  ⟨rfl, parse_response_tool_calls_normalisation .ollama
    (JVal.obj [("message", JVal.obj
      [("content", JVal.str (("hi ").toList)),
       ("tool_calls", JVal.arr [JVal.obj [("function", JVal.obj
          [("name", JVal.str (("t").toList)),
           ("arguments", JVal.obj [])])]])])])
    (⟨JVal.str (("hi").toList),
        some [⟨JVal.str (("t").toList), JVal.obj []⟩]⟩ : ModelResponse) rfl⟩


/-- Slicing the source text at a `pyFind` hit recovers the needle. -/
theorem slice_of_find {text q : List Char} {off : ℕ} (h : pyFind text q = some off) :
    (text.drop off).take q.length = q :=
  take_of_occurrence (pyFind_occurrence text q off h)

/-- Every issue constructed by the item loop records the first-occurrence
offset and the quoted text's length. -/
theorem processItem_some_shape (text : List Char) (item : JVal) (iss : AnalysisIssue)
    (h : processItem text item = Except.ok (some iss)) :
    pyFind text iss.quoted_text = some iss.offset ∧
    iss.length = iss.quoted_text.length := by
  cases item with
  | obj kvs =>
      unfold processItem at h
      cases hc : pyFloat ((jGet (JVal.obj kvs) "confidence").getD (JVal.num 1)) with
      | error e => rw [hc] at h; simp [Bind.bind, Except.bind] at h
      | ok c =>
          rw [hc] at h
          simp only [Bind.bind, Except.bind] at h
          split at h
          · split at h
            · rename_i q hq
              split at h
              · rename_i off hoff
                split at h
                · rename_i itys sgs hsp
                  simp only [Except.ok.injEq, Option.some.injEq] at h
                  subst h
                  exact ⟨hoff, rfl⟩
                · simp at h
              · simp at h
            · simp at h
          · simp at h
  | null => simp [processItem] at h
  | bool b => simp [processItem] at h
  | num q => simp [processItem] at h
  | str s => simp [processItem] at h
  | arr xs => simp [processItem] at h


/-- The offset/length well-formedness of every issue surfaced by the item
loop. -/
theorem reconcileItems_slice (text : List Char) :
    ∀ (items : List JVal) (out : List AnalysisIssue),
      reconcileItems text items = Except.ok out →
      ∀ iss ∈ out, pyFind text iss.quoted_text = some iss.offset ∧
        iss.length = iss.quoted_text.length := by
  intro items
  induction items with
  | nil =>
      intro out h iss hm
      simp [reconcileItems] at h
      subst h
      simp at hm
  | cons item rest ih =>
      intro out h iss hm
      unfold reconcileItems at h
      cases hp : processItem text item with
      | error e => rw [hp] at h; simp [Bind.bind, Except.bind] at h
      | ok r =>
          rw [hp] at h
          cases hr : reconcileItems text rest with
          | error e => rw [hr] at h; simp [Bind.bind, Except.bind] at h
          | ok tail =>
              rw [hr] at h
              simp only [Bind.bind, Except.bind] at h
              cases r with
              | some i0 =>
                  simp only [Except.ok.injEq] at h
                  subst h
                  rcases List.mem_cons.mp hm with hm | hm
                  · subst hm; exact processItem_some_shape text item _ hp
                  · exact ih tail hr iss hm
              | none =>
                  simp only [Except.ok.injEq] at h
                  subst h
                  exact ih tail hr iss hm

/-- The offset/length well-formedness of every issue surfaced by the whole
tool-call loop. -/
theorem reconcileToolCalls_slice (text : List Char) :
    ∀ (tcs : List ToolCall) (out : List AnalysisIssue),
      reconcileToolCalls text tcs = Except.ok out →
      ∀ iss ∈ out, pyFind text iss.quoted_text = some iss.offset ∧
        iss.length = iss.quoted_text.length := by
  intro tcs
  induction tcs with
  | nil =>
      intro out h iss hm
      simp [reconcileToolCalls] at h
      subst h
      simp at hm
  | cons tc rest ih =>
      intro out h iss hm
      unfold reconcileToolCalls at h
      split at h
      · -- expected tool name
        split at h
        · -- arguments is an object
          split at h
          · -- issues argument is an array
            rename_i items hitems
            cases hi : reconcileItems text items with
            | error e => rw [hi] at h; simp [Bind.bind, Except.bind] at h
            | ok here =>
                rw [hi] at h
                cases hr : reconcileToolCalls text rest with
                | error e => rw [hr] at h; simp [Bind.bind, Except.bind] at h
                | ok tail =>
                    rw [hr] at h
                    simp only [Bind.bind, Except.bind, Except.ok.injEq] at h
                    subst h
                    rcases List.mem_append.mp hm with hm | hm
                    · exact reconcileItems_slice text items here hi iss hm
                    · exact ih tail hr iss hm
          · simp at h
        · simp at h
      · exact ih out h iss hm


/-- Evaluation of the item loop body on a well-typed issue entry. -/
theorem processItem_eval (text : List Char) (item : JVal)
    (kvs : List (String × JVal)) (q sg ty : List Char) (cq : ℚ)
    (hobj : item = JVal.obj kvs)
    (hq : (jGet item "quoted_text").getD (JVal.str []) = JVal.str q)
    (hsg : (jGet item "suggestion").getD (JVal.str []) = JVal.str sg)
    (hty : (jGet item "issue_type").getD (JVal.str (("complexity").toList)) = JVal.str ty)
    (hconf : pyFloat ((jGet item "confidence").getD (JVal.num 1)) = Except.ok cq) :
    processItem text item =
      if (!q.isEmpty && !sg.isEmpty) then
        (match pyFind text q with
         | some off => Except.ok (some ⟨off, q.length, q, ty, sg, cq⟩)
         | none => Except.ok none)
      else Except.ok none := by
  subst hobj
  unfold processItem
  simp only [hq, hsg, hty, hconf, Bind.bind, Except.bind]
  rfl

/-- C1: for every source text and well-typed reported issue entry with
non-empty quoted text and suggestion, the reconciliation loop produces an
issue iff the quotation is a literal, case-sensitive substring of the text;
when produced, its offset is the first occurrence (`text.find`), its length
is the quotation's length, and `source_text[offset : offset+length]`
equals the quoted text; quotations not found are never surfaced; and every
issue surfaced by the full tool-call loop satisfies the slice invariant. -/
theorem reconcile_issue_iff_substring
    (text : List Char) (item : JVal) (kvs : List (String × JVal))
    (q sg ty : List Char) (cq : ℚ)
    (hobj : item = JVal.obj kvs)
    (hq : (jGet item "quoted_text").getD (JVal.str []) = JVal.str q)
    (hqne : q ≠ [])
    (hsg : (jGet item "suggestion").getD (JVal.str []) = JVal.str sg)
    (hsgne : sg ≠ [])
    (hty : (jGet item "issue_type").getD (JVal.str (("complexity").toList)) = JVal.str ty)
    (hconf : pyFloat ((jGet item "confidence").getD (JVal.num 1)) = Except.ok cq) :
    ((∃ iss, processItem text item = Except.ok (some iss)) ↔ IsSubstr q text) ∧
    (∀ iss, processItem text item = Except.ok (some iss) →
        pyFind text q = some iss.offset ∧
        iss.length = q.length ∧
        iss.quoted_text = q ∧
        iss.suggestion = sg ∧
        (text.drop iss.offset).take iss.length = q ∧
        (∀ j, j < iss.offset → ¬ q <+: text.drop j)) ∧
    (¬ IsSubstr q text → processItem text item = Except.ok none) ∧
    (∀ tcs issues, reconcileToolCalls text tcs = Except.ok issues →
        ∀ iss ∈ issues, (text.drop iss.offset).take iss.length = iss.quoted_text) := by
  have hE := processItem_eval text item kvs q sg ty cq hobj hq hsg hty hconf
  have hqe : q.isEmpty = false := by
    cases q
    · exact absurd rfl hqne
    · rfl
  have hsge : sg.isEmpty = false := by
    cases sg
    · exact absurd rfl hsgne
    · rfl
  simp only [hqe, hsge, Bool.not_false, Bool.and_self, if_true] at hE
  refine ⟨⟨?_, ?_⟩, ?_, ?_, ?_⟩
  · rintro ⟨iss, hiss⟩
    rw [hE] at hiss
    cases hf : pyFind text q with
    | none => rw [hf] at hiss; simp at hiss
    | some i => exact ⟨i, pyFind_occurrence text q i hf⟩
  · rintro ⟨i, hi⟩
    have hsome := pyFind_isSome_of_occurrence text q i hi
    cases hf : pyFind text q with
    | none => rw [hf] at hsome; simp at hsome
    | some j =>
        refine ⟨⟨j, q.length, q, ty, sg, cq⟩, ?_⟩
        rw [hE, hf]
  · intro iss hiss
    rw [hE] at hiss
    cases hf : pyFind text q with
    | none => rw [hf] at hiss; simp at hiss
    | some i =>
        rw [hf] at hiss
        simp only [Except.ok.injEq, Option.some.injEq] at hiss
        subst hiss
        refine ⟨rfl, rfl, rfl, rfl, ?_, ?_⟩
        · exact slice_of_find hf
        · intro j hj
          exact pyFind_minimal text q i hf j hj
  · intro hns
    rw [hE]
    cases hf : pyFind text q with
    | some i => exact absurd ⟨i, pyFind_occurrence text q i hf⟩ hns
    | none => rfl
  · intro tcs issues hrec iss hm
    obtain ⟨h1, h2⟩ := reconcileToolCalls_slice text tcs issues hrec iss hm
    rw [h2]
    exact slice_of_find h1


/-- C1 witness: the spec's example text with quotation `was being chased`
(first occurrence at offset 8). -/
theorem reconcile_issue_iff_substring_witness :
    ((JVal.obj [("quoted_text", JVal.str (("was being chased").toList)), ("issue_type", JVal.str (("passive_voice").toList)), ("suggestion", JVal.str (("the dog chased it").toList)), ("confidence", JVal.num (9/10))]) = JVal.obj [("quoted_text", JVal.str (("was being chased").toList)), ("issue_type", JVal.str (("passive_voice").toList)), ("suggestion", JVal.str (("the dog chased it").toList)), ("confidence", JVal.num (9/10))]) ∧
    ((jGet (JVal.obj [("quoted_text", JVal.str (("was being chased").toList)), ("issue_type", JVal.str (("passive_voice").toList)), ("suggestion", JVal.str (("the dog chased it").toList)), ("confidence", JVal.num (9/10))]) "quoted_text").getD (JVal.str []) = JVal.str (("was being chased").toList)) ∧
    ((("was being chased").toList) ≠ []) ∧
    ((jGet (JVal.obj [("quoted_text", JVal.str (("was being chased").toList)), ("issue_type", JVal.str (("passive_voice").toList)), ("suggestion", JVal.str (("the dog chased it").toList)), ("confidence", JVal.num (9/10))]) "suggestion").getD (JVal.str []) = JVal.str (("the dog chased it").toList)) ∧
    ((("the dog chased it").toList) ≠ []) ∧
    ((jGet (JVal.obj [("quoted_text", JVal.str (("was being chased").toList)), ("issue_type", JVal.str (("passive_voice").toList)), ("suggestion", JVal.str (("the dog chased it").toList)), ("confidence", JVal.num (9/10))]) "issue_type").getD (JVal.str (("complexity").toList)) = JVal.str (("passive_voice").toList)) ∧
    (pyFloat ((jGet (JVal.obj [("quoted_text", JVal.str (("was being chased").toList)), ("issue_type", JVal.str (("passive_voice").toList)), ("suggestion", JVal.str (("the dog chased it").toList)), ("confidence", JVal.num (9/10))]) "confidence").getD (JVal.num 1)) = Except.ok (9/10)) ∧
    (((∃ iss, processItem (("The cat was being chased by the dog.").toList) (JVal.obj [("quoted_text", JVal.str (("was being chased").toList)), ("issue_type", JVal.str (("passive_voice").toList)), ("suggestion", JVal.str (("the dog chased it").toList)), ("confidence", JVal.num (9/10))]) = Except.ok (some iss)) ↔ IsSubstr (("was being chased").toList) (("The cat was being chased by the dog.").toList)) ∧
     (∀ iss, processItem (("The cat was being chased by the dog.").toList) (JVal.obj [("quoted_text", JVal.str (("was being chased").toList)), ("issue_type", JVal.str (("passive_voice").toList)), ("suggestion", JVal.str (("the dog chased it").toList)), ("confidence", JVal.num (9/10))]) = Except.ok (some iss) →
        pyFind (("The cat was being chased by the dog.").toList) (("was being chased").toList) = some iss.offset ∧
        iss.length = ((("was being chased").toList)).length ∧
        iss.quoted_text = (("was being chased").toList) ∧
        iss.suggestion = (("the dog chased it").toList) ∧
        (((("The cat was being chased by the dog.").toList)).drop iss.offset).take iss.length = (("was being chased").toList) ∧
        (∀ j, j < iss.offset → ¬ (("was being chased").toList) <+: ((("The cat was being chased by the dog.").toList)).drop j)) ∧
     (¬ IsSubstr (("was being chased").toList) (("The cat was being chased by the dog.").toList) → processItem (("The cat was being chased by the dog.").toList) (JVal.obj [("quoted_text", JVal.str (("was being chased").toList)), ("issue_type", JVal.str (("passive_voice").toList)), ("suggestion", JVal.str (("the dog chased it").toList)), ("confidence", JVal.num (9/10))]) = Except.ok none) ∧
     (∀ tcs issues, reconcileToolCalls (("The cat was being chased by the dog.").toList) tcs = Except.ok issues →
        ∀ iss ∈ issues, (((("The cat was being chased by the dog.").toList)).drop iss.offset).take iss.length = iss.quoted_text)) :=
  ⟨rfl, rfl, by decide, rfl, by decide, rfl, rfl,
   reconcile_issue_iff_substring (("The cat was being chased by the dog.").toList) (JVal.obj [("quoted_text", JVal.str (("was being chased").toList)), ("issue_type", JVal.str (("passive_voice").toList)), ("suggestion", JVal.str (("the dog chased it").toList)), ("confidence", JVal.num (9/10))]) [("quoted_text", JVal.str (("was being chased").toList)), ("issue_type", JVal.str (("passive_voice").toList)), ("suggestion", JVal.str (("the dog chased it").toList)), ("confidence", JVal.num (9/10))]
     (("was being chased").toList) (("the dog chased it").toList) (("passive_voice").toList) (9/10) rfl rfl (by decide) rfl (by decide) rfl rfl⟩

end LocalScribe
